import Mathlib

/-!
Shallow embedding of `src/config/lily58_oled.c`, a ZMK OLED status-screen
widget for the Lily58 split keyboard.  The left half shows a logo until the
first layer change, then a layer label and a modifier label; the right half
shows a WPM value with a colour-coded progress bar.  LVGL object handles
become presence flags, the hidden flag becomes a Bool per object, and each
event handler becomes a function on an explicit screen state returning the
new state together with the event-manager result code.
-/

namespace Lily58

/-- Result code an event listener hands back to the ZMK event manager.
`bubble` models `ZMK_EV_EVENT_BUBBLE` (continue propagating). -/
inductive EvResult
  | bubble
  | handled
  | captured
  deriving DecidableEq

/-- An LVGL colour, as produced by `lv_color_make(r, g, b)`. -/
structure Color where
  r : Nat
  g : Nat
  b : Nat
  deriving DecidableEq

def lv_color_make (r g b : Nat) : Color := ⟨r, g, b⟩

/-- State of the LEFT-half LVGL objects: `logo_img`, `layer_lbl`, `mod_lbl`.
A `*Present` flag models the global pointer being non-NULL; a `*Hidden`
flag models `LV_OBJ_FLAG_HIDDEN` being set on the object. -/
structure LeftState where
  logoPresent : Bool
  layerPresent : Bool
  modPresent : Bool
  logoHidden : Bool
  layerHidden : Bool
  modHidden : Bool
  layerText : String
  modText : String
  deriving DecidableEq

/-- State of the RIGHT-half LVGL objects: `wpm_lbl`, `wpm_val`, `wpm_bar`. -/
structure RightState where
  wpmLblPresent : Bool
  wpmValPresent : Bool
  wpmBarPresent : Bool
  wpmLblHidden : Bool
  wpmValHidden : Bool
  wpmBarHidden : Bool
  wpmValText : String
  barValue : Nat
  barColor : Color
  deriving DecidableEq

/-- The module-level mutable state: both halves' objects. -/
structure ScreenState where
  left : LeftState
  right : RightState
  deriving DecidableEq

/-- All module globals start as NULL pointers before the status screen is
built, so every presence flag is false. -/
def init_screen : ScreenState :=
  { left := { logoPresent := false, layerPresent := false, modPresent := false,
              logoHidden := false, layerHidden := false, modHidden := false,
              layerText := "", modText := "" },
    right := { wpmLblPresent := false, wpmValPresent := false, wpmBarPresent := false,
               wpmLblHidden := false, wpmValHidden := false, wpmBarHidden := false,
               wpmValText := "", barValue := 0, barColor := ⟨0, 0, 0⟩ } }

/-- The `layer_names` table (source lines 50-55). -/
def layer_names : List String := ["QWERTY", "NAV", "SYM", "FUN"]

/-- Model of `NUM_LAYERS`, defined as `ARRAY_SIZE(layer_names)`. -/
def NUM_LAYERS : Nat := layer_names.length

/-- Modifier bit constants from the host header `zmk/hid.h` (standard HID
usage-page modifier byte layout), used by `update_mod_label`. -/
def MOD_LCTL : Nat := 0x01
def MOD_LSFT : Nat := 0x02
def MOD_LALT : Nat := 0x04
def MOD_LGUI : Nat := 0x08
def MOD_RCTL : Nat := 0x10
def MOD_RSFT : Nat := 0x20
def MOD_RALT : Nat := 0x40
def MOD_RGUI : Nat := 0x80

/-- Condition of source line 84: `mods & MOD_LCTL || mods & MOD_RCTL`. -/
def ctl_active (mods : Nat) : Bool :=
  mods &&& MOD_LCTL != 0 || mods &&& MOD_RCTL != 0

/-- Condition of source line 85: `mods & MOD_LALT || mods & MOD_RALT`. -/
def alt_active (mods : Nat) : Bool :=
  mods &&& MOD_LALT != 0 || mods &&& MOD_RALT != 0

/-- Condition of source line 86: `mods & MOD_LSFT || mods & MOD_RSFT`. -/
def sft_active (mods : Nat) : Bool :=
  mods &&& MOD_LSFT != 0 || mods &&& MOD_RSFT != 0

/-- Condition of source line 87: `mods & MOD_LGUI || mods & MOD_RGUI`. -/
def gui_active (mods : Nat) : Bool :=
  mods &&& MOD_LGUI != 0 || mods &&& MOD_RGUI != 0

/-- The `strcat` accumulation of `update_mod_label` (source lines 82-88):
starting from the zeroed `buf`, append each abbreviation whose modifier is
active, in the fixed order Ctl, Alt, Sft, Gui. -/
def build_mod_buf (mods : Nat) : String :=
  let buf := ""
  let buf := if ctl_active mods then buf ++ "Ctl " else buf
  let buf := if alt_active mods then buf ++ "Alt " else buf
  let buf := if sft_active mods then buf ++ "Sft " else buf
  let buf := if gui_active mods then buf ++ "Gui " else buf
  buf

/-- The final text of `update_mod_label` (source line 89): the placeholder
`"---"` replaces an empty accumulation. -/
def mod_label_text (mods : Nat) : String :=
  let buf := build_mod_buf mods
  if buf.length == 0 then "---" else buf

/-- Model of `update_mod_label` (source lines 78-92): a no-op when `mod_lbl` is NULL,
otherwise sets the modifier label text.  The current modifier bitmask, read
from `zmk_hid_get_explicit_mods()`, is passed in explicitly. -/
def update_mod_label (mods : Nat) (s : ScreenState) : ScreenState :=
  if !s.left.modPresent then s
  else { s with left := { s.left with modText := mod_label_text mods } }

/-- Model of `snprintf(buf, 8, "%3d", wpm)` for a `uint8_t` argument: the decimal
digits right-justified with spaces to a minimum width of 3. -/
def snprintf_3d (v : Nat) : String :=
  if v < 10 then "  " ++ toString v
  else if v < 100 then " " ++ toString v
  else toString v

/-- Modelled from the spec: the fixed-width numeric label format of §4.5,
"format `speedValue` as a fixed-width numeric string (e.g. right-justified
in a 3-character field)"; stated independently of `snprintf_3d` so the two
can be compared. -/
def right_justified_3 (v : Nat) : String :=
  let digits := toString v
  String.mk (List.replicate (3 - digits.length) ' ') ++ digits

/-- Model of `update_wpm` (source lines 95-112): a no-op when `wpm_val` or `wpm_bar`
is NULL; otherwise sets the value label via `"%3d"`, caps the bar value at
200, and colour-codes the bar indicator by the 60/100 thresholds. -/
def update_wpm (wpm : Nat) (s : ScreenState) : ScreenState :=
  if !s.right.wpmValPresent || !s.right.wpmBarPresent then s
  else
    let r := s.right
    let r := { r with wpmValText := snprintf_3d wpm }
    let r := { r with barValue := min wpm 200 }
    let col := if wpm < 60 then lv_color_make 0x00 0xFF 0x00
               else if wpm < 100 then lv_color_make 0xFF 0xD0 0x00
               else lv_color_make 0xFF 0x40 0x40
    { s with right := { r with barColor := col } }

/-- Model of `build_left_screen` (source lines 123-156): creates the logo image
(visible), the layer label (text `"LAYER: QWERTY"`, hidden) and the modifier
label (text `"---"`, hidden), all with non-NULL handles. -/
def build_left_screen : LeftState :=
  { logoPresent := true, layerPresent := true, modPresent := true,
    logoHidden := false, layerHidden := true, modHidden := true,
    layerText := "LAYER: QWERTY", modText := "---" }

/-- Modelled from the spec: `build_right_screen` is called by
`zmk_display_status_screen` but its definition is not in the given source.
Per §4.2, the RIGHT layout creates "a numeric label, a header label, and a
bounded progress indicator (range [0,200]), all visible from the start with
zero/placeholder values". -/
def build_right_screen : RightState :=
  { wpmLblPresent := true, wpmValPresent := true, wpmBarPresent := true,
    wpmLblHidden := false, wpmValHidden := false, wpmBarHidden := false,
    wpmValText := "  0", barValue := 0, barColor := ⟨0, 0, 0⟩ }

/-- Model of `zmk_display_status_screen` (source lines 159-166): builds the layout of
the side this half plays, and returns status 0. -/
def zmk_display_status_screen (isLeft : Bool) (s : ScreenState) :
    ScreenState × Int :=
  if isLeft then ({ s with left := build_left_screen }, 0)
  else ({ s with right := build_right_screen }, 0)

/-- Model of `layer_event_handler` (source lines 171-187): on the left side with a
live layer label, formats `"LAYER: "` plus the table entry (or `"???"` out
of range) into the label, hides the logo and reveals both labels, each
behind its own NULL guard; always bubbles. -/
def layer_event_handler (isLeft : Bool) (idx : Nat) (s : ScreenState) :
    ScreenState × EvResult :=
  if !isLeft || !s.left.layerPresent then (s, EvResult.bubble)
  else
    let name := if idx < NUM_LAYERS then layer_names.getD idx "???" else "???"
    let l := s.left
    let l := { l with
      layerText := "LAYER: " ++ name,
      logoHidden := if l.logoPresent then true else l.logoHidden,
      layerHidden := if l.layerPresent then false else l.layerHidden,
      modHidden := if l.modPresent then false else l.modHidden }
    ({ s with left := l }, EvResult.bubble)

/-- Model of `mod_event_handler` (source lines 190-194): refreshes the modifier
string on the left side; always bubbles. -/
def mod_event_handler (isLeft : Bool) (mods : Nat) (s : ScreenState) :
    ScreenState × EvResult :=
  if !isLeft then (s, EvResult.bubble)
  else (update_mod_label mods s, EvResult.bubble)

/-- Model of `wpm_event_handler` (source lines 197-204): on the right side, updates
the WPM display when the event payload casts successfully (`ev` non-NULL);
the `uint8_t` parameter of `update_wpm` truncates the payload mod 256;
always bubbles. -/
def wpm_event_handler (isLeft : Bool) (ev : Option Nat) (s : ScreenState) :
    ScreenState × EvResult :=
  if isLeft then (s, EvResult.bubble)
  else
    match ev with
    | some w => (update_wpm (w % 256) s, EvResult.bubble)
    | none => (s, EvResult.bubble)

/-- A notification delivered by the host dispatcher to one of the three
registered listeners. -/
inductive Event
  | layerChanged (idx : Nat)
  | modsChanged (mods : Nat)
  | wpmChanged (ev : Option Nat)

/-- Dispatch one notification to its listener (the ZMK subscriptions at
source lines 206-213). -/
def dispatch (isLeft : Bool) (e : Event) (s : ScreenState) :
    ScreenState × EvResult :=
  match e with
  | Event.layerChanged idx => layer_event_handler isLeft idx s
  | Event.modsChanged m => mod_event_handler isLeft m s
  | Event.wpmChanged ev => wpm_event_handler isLeft ev s

/-- Deliver a sequence of notifications in order. -/
def deliver (isLeft : Bool) : List Event → ScreenState → ScreenState
  | [], s => s
  | e :: rest, s => deliver isLeft rest (dispatch isLeft e s).1

/-- Left-side visibility state in which only the logo shows. -/
def logoOnly (s : ScreenState) : Prop :=
  s.left.logoHidden = false ∧ s.left.layerHidden = true ∧ s.left.modHidden = true

/-- Left-side visibility state in which only the status labels show. -/
def statusShown (s : ScreenState) : Prop :=
  s.left.logoHidden = true ∧ s.left.layerHidden = false ∧ s.left.modHidden = false

/-- Exactly one of {Logo, StatusLabels} is visible on the left side. -/
def exactlyOneLeftVisible (s : ScreenState) : Prop :=
  logoOnly s ∨ statusShown s

/-- All three left-half object handles are non-NULL. -/
def allLeftPresent (s : ScreenState) : Prop :=
  s.left.logoPresent = true ∧ s.left.layerPresent = true ∧ s.left.modPresent = true

/-- The left screen as it stands right after the status screen is built on
the left half. -/
def sample_built_left : ScreenState :=
  (zmk_display_status_screen true init_screen).1

/-- The right screen as it stands right after the status screen is built on
the right half. -/
def sample_built_right : ScreenState :=
  (zmk_display_status_screen false init_screen).1

/-- Modelled from the spec: the list of abbreviations of the modifiers set
in the bitmask, in the fixed order of §4.4 (Ctrl, Alt, Shift, Gui); stated
independently of `build_mod_buf` so the two can be compared. -/
def mod_abbrevs (mods : Nat) : List String :=
  (if ctl_active mods then ["Ctl"] else []) ++
  (if alt_active mods then ["Alt"] else []) ++
  (if sft_active mods then ["Sft"] else []) ++
  (if gui_active mods then ["Gui"] else [])

/-! ## Theorems -/

/-- Claim C5: side gating — the layer-change and modifier-change handlers
leave all screen state unchanged when the side is not LEFT, and the
speed-change handler leaves all screen state unchanged when the side is not
RIGHT; in those cases each handler only returns the propagation signal. -/
theorem side_gating (idx mods : Nat) (ev : Option Nat) (s : ScreenState) :
    layer_event_handler false idx s = (s, EvResult.bubble) ∧
    mod_event_handler false mods s = (s, EvResult.bubble) ∧
    wpm_event_handler true ev s = (s, EvResult.bubble) := by
  refine ⟨?_, ?_, ?_⟩ <;> simp [layer_event_handler, mod_event_handler, wpm_event_handler]

/-- Claim C8: every notification handler returns the "continue propagating"
(bubble) signal on every execution path, for every input and every side. -/
theorem handlers_always_bubble (isLeft : Bool) (idx mods : Nat)
    (ev : Option Nat) (s : ScreenState) :
    (layer_event_handler isLeft idx s).2 = EvResult.bubble ∧
    (mod_event_handler isLeft mods s).2 = EvResult.bubble ∧
    (wpm_event_handler isLeft ev s).2 = EvResult.bubble := by
  refine ⟨?_, ?_, ?_⟩
  · unfold layer_event_handler
    split <;> rfl
  · unfold mod_event_handler
    split <;> rfl
  · unfold wpm_event_handler
    split
    · rfl
    · cases ev <;> rfl

/-- Claim C7: null-handle guards — the layer-change handler is a silent
no-op when the layer label is NULL, the modifier updater when the modifier
label is NULL, and the speed updater when the value label or the bar is
NULL: state unchanged, no error, only the propagation signal returned. -/
theorem null_handle_guards (idx mods wpm : Nat) (s : ScreenState) :
    (s.left.layerPresent = false →
      layer_event_handler true idx s = (s, EvResult.bubble)) ∧
    (s.left.modPresent = false → update_mod_label mods s = s) ∧
    (s.right.wpmValPresent = false ∨ s.right.wpmBarPresent = false →
      update_wpm wpm s = s) := by
  refine ⟨fun h => ?_, fun h => ?_, fun h => ?_⟩
  · simp [layer_event_handler, h]
  · simp [update_mod_label, h]
  · rcases h with h | h <;> simp [update_wpm, h]

/-- Witness for C7 at the pre-build state, whose handles are all NULL. -/
theorem null_handle_guards_witness :
    layer_event_handler true 1 init_screen = (init_screen, EvResult.bubble) ∧
    update_mod_label 3 init_screen = init_screen ∧
    update_wpm 80 init_screen = init_screen := by
  have h := null_handle_guards 1 3 80 init_screen
  exact ⟨h.1 rfl, h.2.1 rfl, h.2.2 (Or.inl rfl)⟩

/-- Claim C6: building the status screen always succeeds with status 0 for
both sides, and on the LEFT side creates the logo visible and the layer and
modifier labels hidden, pre-populated with `"LAYER: QWERTY"` and `"---"`,
so exactly one of {Logo, StatusLabels} is visible after the build. -/
theorem build_screen_ok (isLeft : Bool) (s : ScreenState) :
    (zmk_display_status_screen isLeft s).2 = 0 ∧
    (zmk_display_status_screen true s).1.left.logoHidden = false ∧
    (zmk_display_status_screen true s).1.left.layerHidden = true ∧
    (zmk_display_status_screen true s).1.left.modHidden = true ∧
    (zmk_display_status_screen true s).1.left.layerText = "LAYER: QWERTY" ∧
    (zmk_display_status_screen true s).1.left.modText = "---" ∧
    exactlyOneLeftVisible (zmk_display_status_screen true s).1 := by
  refine ⟨?_, ?_⟩
  · unfold zmk_display_status_screen
    split <;> rfl
  · simp [zmk_display_status_screen, build_left_screen, exactlyOneLeftVisible, logoOnly]

/-- Claim C2: for every layer index, the layer-change handler on the LEFT
side sets the layer label text to `"LAYER: "` plus the table entry when the
index is below the table size (4), and to `"LAYER: ???"` otherwise, in both
cases totally, without any error path. -/
theorem layer_label_text (idx : Nat) (s : ScreenState)
    (h : s.left.layerPresent = true) :
    NUM_LAYERS = 4 ∧
    (idx < NUM_LAYERS →
      (layer_event_handler true idx s).1.left.layerText =
        "LAYER: " ++ layer_names.getD idx "") ∧
    (NUM_LAYERS ≤ idx →
      (layer_event_handler true idx s).1.left.layerText = "LAYER: ???") := by
  refine ⟨rfl, fun hlt => ?_, fun hge => ?_⟩
  · simp only [layer_event_handler, h]
    split
    · simp_all
    · have h4 : idx < 4 := hlt
      interval_cases idx <;> simp [NUM_LAYERS, layer_names]
  · simp only [layer_event_handler, h]
    split
    · simp_all
    · simp [Nat.not_lt.mpr hge]

/-- Witness for C2: one in-range and one out-of-range index on the freshly
built left screen. -/
theorem layer_label_text_witness :
    (layer_event_handler true 1 sample_built_left).1.left.layerText =
      "LAYER: " ++ layer_names.getD 1 "" ∧
    (layer_event_handler true 9 sample_built_left).1.left.layerText =
      "LAYER: ???" :=
  ⟨(layer_label_text 1 sample_built_left rfl).2.1 (by decide),
   (layer_label_text 9 sample_built_left rfl).2.2 (by decide)⟩

/-- Claim C10: the modifier string built by the `strcat` chain never
overflows the 32-byte buffer: for every bitmask the accumulated string has
at most 16 characters, and with the terminator stays strictly within 32. -/
theorem mod_buf_no_overflow (mods : Nat) :
    (build_mod_buf mods).length ≤ 16 ∧ (mod_label_text mods).length + 1 < 32 := by
  unfold mod_label_text build_mod_buf
  cases ctl_active mods <;> cases alt_active mods <;>
    cases sft_active mods <;> cases gui_active mods <;> decide

/-- Claim C3: for every bitmask the modifier label text is exactly the
abbreviations of the set modifiers in the fixed order Ctl, Alt, Sft, Gui,
space-separated (each abbreviation followed by a separating space), and is
exactly `"---"` when none of the four modifiers is set. -/
theorem mod_label_abbrevs (mods : Nat) :
    mod_label_text mods =
      if mod_abbrevs mods = [] then "---"
      else String.intercalate " " (mod_abbrevs mods) ++ " " := by
  unfold mod_label_text build_mod_buf mod_abbrevs
  cases ctl_active mods <;> cases alt_active mods <;>
    cases sft_active mods <;> cases gui_active mods <;> decide

/-- Claim C9: the modifier string builder treats left-hand and right-hand
variants identically: the accumulated string decomposes by the per-modifier
left-or-right disjunctions, so each abbreviation appears exactly when that
disjunction holds, and any two bitmasks agreeing on the four disjunctions
yield the same string. -/
theorem mod_lr_symmetric (m n : Nat)
    (hc : ctl_active m = ctl_active n) (ha : alt_active m = alt_active n)
    (hs : sft_active m = sft_active n) (hg : gui_active m = gui_active n) :
    build_mod_buf m =
      (if ctl_active m then "Ctl " else "") ++
      (if alt_active m then "Alt " else "") ++
      (if sft_active m then "Sft " else "") ++
      (if gui_active m then "Gui " else "") ∧
    build_mod_buf m = build_mod_buf n ∧
    mod_label_text m = mod_label_text n := by
  unfold mod_label_text build_mod_buf
  rw [hc, ha, hs, hg]
  cases ctl_active n <;> cases alt_active n <;>
    cases sft_active n <;> cases gui_active n <;> simp

/-- Witness for C9: left Ctrl alone (0x01) and right Ctrl alone (0x10)
produce the same modifier string. -/
theorem mod_lr_symmetric_witness :
    build_mod_buf 0x01 =
      (if ctl_active 0x01 then "Ctl " else "") ++
      (if alt_active 0x01 then "Alt " else "") ++
      (if sft_active 0x01 then "Sft " else "") ++
      (if gui_active 0x01 then "Gui " else "") ∧
    build_mod_buf 0x01 = build_mod_buf 0x10 ∧
    mod_label_text 0x01 = mod_label_text 0x10 :=
  mod_lr_symmetric 0x01 0x10 rfl rfl rfl rfl

set_option maxRecDepth 4000 in
/-- The `"%3d"` format agrees with the spec's right-justified 3-character
field on the whole `uint8_t` domain, and always fills exactly 3 characters
there. -/
lemma snprintf_3d_spec : ∀ v < 256,
    snprintf_3d v = right_justified_3 v ∧ (right_justified_3 v).length = 3 := by
  decide

/-- Claim C4: for every speed value accepted by `update_wpm` (a `uint8_t`),
the bar value becomes `min v 200`, the bar fill colour is green below 60,
yellow from 60 to 99, and red from 100 up, and the value label is the speed
right-justified in a 3-character field. -/
theorem wpm_display_update (v : Nat) (s : ScreenState) (hv : v < 256)
    (h1 : s.right.wpmValPresent = true) (h2 : s.right.wpmBarPresent = true) :
    (update_wpm v s).right.barValue = min v 200 ∧
    (update_wpm v s).right.barColor =
      (if v < 60 then lv_color_make 0x00 0xFF 0x00
       else if v < 100 then lv_color_make 0xFF 0xD0 0x00
       else lv_color_make 0xFF 0x40 0x40) ∧
    (update_wpm v s).right.wpmValText = right_justified_3 v ∧
    (right_justified_3 v).length = 3 := by
  have hf := snprintf_3d_spec v hv
  refine ⟨?_, ?_, ?_, hf.2⟩ <;> simp [update_wpm, h1, h2, hf.1]

/-- Witness for C4 at speed 87 on the freshly built right screen. -/
theorem wpm_display_update_witness :
    (update_wpm 87 sample_built_right).right.barValue = min 87 200 ∧
    (update_wpm 87 sample_built_right).right.barColor =
      (if 87 < 60 then lv_color_make 0x00 0xFF 0x00
       else if 87 < 100 then lv_color_make 0xFF 0xD0 0x00
       else lv_color_make 0xFF 0x40 0x40) ∧
    (update_wpm 87 sample_built_right).right.wpmValText = right_justified_3 87 ∧
    (right_justified_3 87).length = 3 :=
  wpm_display_update 87 sample_built_right (by decide) rfl rfl

/-- Dispatching any single notification on the left side preserves the
"status labels shown, logo hidden" visibility state. -/
lemma statusShown_dispatch (e : Event) (s : ScreenState) (h : statusShown s) :
    statusShown (dispatch true e s).1 := by
  obtain ⟨h1, h2, h3⟩ := h
  cases e with
  | layerChanged idx =>
    show statusShown (layer_event_handler true idx s).1
    unfold layer_event_handler statusShown
    split_ifs <;> simp_all
  | modsChanged m =>
    show statusShown (mod_event_handler true m s).1
    unfold mod_event_handler update_mod_label statusShown
    split_ifs <;> simp_all
  | wpmChanged ev =>
    show statusShown (wpm_event_handler true ev s).1
    unfold wpm_event_handler statusShown
    split_ifs <;> simp_all

/-- Delivering any sequence of notifications on the left side preserves the
"status labels shown, logo hidden" visibility state. -/
lemma statusShown_deliver (evs : List Event) (s : ScreenState)
    (h : statusShown s) : statusShown (deliver true evs s) := by
  induction evs generalizing s with
  | nil => exact h
  | cons e rest ih => exact ih _ (statusShown_dispatch e s h)

/-- With all left-half handles live, one layer-change call lands in the
"status labels shown, logo hidden" state. -/
lemma statusShown_after_layer (idx : Nat) (s : ScreenState)
    (h : allLeftPresent s) : statusShown (layer_event_handler true idx s).1 := by
  obtain ⟨h1, h2, h3⟩ := h
  unfold layer_event_handler statusShown
  simp [h1, h2, h3]

/-- Claim C1: the LEFT-side visibility transition is one-way and
idempotent.  With all left-half handles live, after any layer-change call
the logo is hidden and both status labels are visible, and after any
further sequence of layer-change, modifier-change or speed-change
notifications this still holds, so at every such point exactly one of
{Logo, StatusLabels} is visible. -/
theorem left_visibility_one_way (idx : Nat) (evs : List Event)
    (s : ScreenState) (h : allLeftPresent s) :
    statusShown (layer_event_handler true idx s).1 ∧
    statusShown (deliver true evs (layer_event_handler true idx s).1) ∧
    exactlyOneLeftVisible (deliver true evs (layer_event_handler true idx s).1) := by
  have hfirst := statusShown_after_layer idx s h
  have hrest := statusShown_deliver evs _ hfirst
  exact ⟨hfirst, hrest, Or.inr hrest⟩

/-- Witness for C1: on the freshly built left screen, a layer change
followed by further layer, modifier and speed notifications (including a
repeated layer change) keeps the status labels visible and the logo
hidden. -/
theorem left_visibility_one_way_witness :
    statusShown (layer_event_handler true 1 sample_built_left).1 ∧
    statusShown (deliver true
      [Event.layerChanged 1, Event.modsChanged 0x22,
       Event.wpmChanged (some 80), Event.layerChanged 0]
      (layer_event_handler true 1 sample_built_left).1) ∧
    exactlyOneLeftVisible (deliver true
      [Event.layerChanged 1, Event.modsChanged 0x22,
       Event.wpmChanged (some 80), Event.layerChanged 0]
      (layer_event_handler true 1 sample_built_left).1) :=
  left_visibility_one_way 1
    [Event.layerChanged 1, Event.modsChanged 0x22,
     Event.wpmChanged (some 80), Event.layerChanged 0]
    sample_built_left ⟨rfl, rfl, rfl⟩

end Lily58
